import Mathlib

/-!
Verification development for the galaxy-importer validation engine
(`galaxy_importer/schema.py` and `galaxy_importer/utils/spdx_licenses.py`).

The Python code is shallowly embedded: each attrs validator becomes a Lean
function returning `Except String Unit` (a raised `ValueError` /
`LegacyRoleSchemaError` is `Except.error msg`), and object construction is the
fail-fast sequencing of the field validators in field declaration order
followed by the post-init hook, exactly as the attrs library executes them.
Python truthiness is made explicit where the code relies on it.

The modelled input space consists of the Python values the claims quantify
over: strings / None for scalar fields, lists of strings for list fields.
Inputs of entirely wrong runtime type (e.g. an int where a string is expected)
are outside the model, except for the `dependencies` field where the
instance-of-dict check is part of a claim and the input type has an explicit
non-dict constructor.
-/

/-- Fail-fast sequencing of two validation steps: the first raised error
aborts and propagates unchanged (Python exception semantics). -/
def exSeq (a : Except String Unit) (b : Except String Unit) : Except String Unit :=
  match a with
  | .error e => .error e
  | .ok _ => b

/-- `Except.isOk` for our validation results. -/
def exIsOk {ε α : Type} : Except ε α → Bool
  | .error _ => false
  | .ok _ => true

/-- Decidable equality for validation results, so witnesses can be settled
by `decide`. -/
instance {ε α : Type} [DecidableEq ε] [DecidableEq α] : DecidableEq (Except ε α) :=
  fun a b =>
    match a, b with
    | .error e, .error e' =>
      if h : e = e' then .isTrue (by rw [h]) else .isFalse (by simp [h])
    | .ok x, .ok y =>
      if h : x = y then .isTrue (by rw [h]) else .isFalse (by simp [h])
    | .error _, .ok _ => .isFalse (by simp)
    | .ok _, .error _ => .isFalse (by simp)

/-- Python truthiness of an optional string (`None` and `""` are falsy). -/
def truthyStr : Option String → Bool
  | none => false
  | some s => !(s = "")

/-- Python `str()` of a list of strings, e.g. `['MIT', 'GPL-2.0']`
(used when an f-string interpolates a list value). -/
def pyStrList (l : List String) : String :=
  "[" ++ String.intercalate ", " (l.map (fun s => "'" ++ s ++ "'")) ++ "]"

/-- Python `str()` of an optional string as an f-string interpolates it:
`None` renders as `None`, a string renders as itself. -/
def pyStrOpt : Option String → String
  | none => "None"
  | some s => s

/-! ## License catalog (`galaxy_importer/utils/spdx_licenses.py`)

The bundled JSON table maps an SPDX identifier to an entry object such as
`\x7b"deprecated": false\x7d`.  An entry is modelled as an association list of
string keys to boolean values; the table as an association list from
identifiers to entries.  Python dict truthiness (empty dict is falsy) and
`dict.get` are made explicit. -/

/-- One catalog entry: a JSON object with boolean-valued keys
(in the shipped data, the relevant key is `deprecated`). -/
abbrev SpdxEntry := List (String × Bool)

/-- The catalog: SPDX identifier to entry. -/
abbrev SpdxTable := List (String × SpdxEntry)

/-- Python truthiness of an entry dict: truthy iff non-empty. -/
def entryTruthy (e : SpdxEntry) : Bool := !e.isEmpty

/-- `entry.get("deprecated", None)` followed by Python truthiness:
a missing key is `None` (falsy), a present key yields its boolean. -/
def entryDeprecated (e : SpdxEntry) : Bool :=
  match e.lookup "deprecated" with
  | none => false
  | some b => b

/-- Embeds `is_valid_license_id(license_id)`: `None` is invalid; an absent
identifier is invalid; an identifier whose entry is truthy and carries a
truthy `deprecated` value is invalid; everything else is valid.  The catalog
table (obtained in Python from the `_get_spdx()` cache) is a parameter. -/
def is_valid_license_id (table : SpdxTable) (license_id : Option String) : Bool :=
  match license_id with
  | none => false
  | some id =>
    match table.lookup id with
    | none => false
    | some valid =>
      -- license was in list, but is deprecated
      if entryTruthy valid && entryDeprecated valid then false
      else true

/-- Python truthiness of the module global `_SPDX_LICENSES`
(`None` before any load; a loaded dict is truthy iff non-empty). -/
def spdxCacheTruthy : Option SpdxTable → Bool
  | none => false
  | some t => !t.isEmpty

/-- Embeds `_get_spdx()`.  `loadResult` is what `_load_spdx()` returns when
invoked (the parsed table on success, the empty table on a failed read);
`st` is the current value of the global `_SPDX_LICENSES`.  Returns the table
handed to the caller, the new global state, and whether `_load_spdx()` was
invoked on this call (i.e. whether the backing data was read). -/
def _get_spdx (loadResult : SpdxTable) (st : Option SpdxTable) :
    SpdxTable × Option SpdxTable × Bool :=
  if spdxCacheTruthy st then
    (st.getD [], st, false)
  else
    (loadResult, some loadResult, true)

/-! ## Identifier grammar and version syntax

`constants.NAME_REGEXP` and the `semantic_version` library are referenced by
`schema.py` but their sources are not part of the reviewed tree, so they are
modelled from the spec. -/

/-- A regex word character (`\w`, ASCII): letter, digit or underscore. -/
def wordChar (c : Char) : Bool := c.isAlphanum || c = '_'

/-- Modelled from the spec: `constants.NAME_REGEXP`, the identifier grammar
for namespace/name/tag tokens ("word characters"; length bounds are enforced
by separate checks).  A match requires a non-empty all-word-character string. -/
def nameMatch (s : String) : Bool := !(s = "") && s.toList.all wordChar

/-- A non-empty all-digit string. -/
def isDigits (s : String) : Bool := !(s = "") && s.toList.all Char.isDigit

/-- A numeric identifier without leading zeros (semver core / numeric
prerelease identifier rule). -/
def isNumericNoLeadingZero (s : String) : Bool :=
  isDigits s && (s = "0" || !(s.toList.headD '0' = '0'))

/-- A semver prerelease/build identifier character. -/
def identChar (c : Char) : Bool := c.isAlphanum || c = '-'

/-- A valid prerelease identifier: non-empty, alphanumeric-or-hyphen,
and when purely numeric it must have no leading zeros. -/
def preIdentOk (s : String) : Bool :=
  !(s = "") && s.toList.all identChar &&
    (!(s.toList.all Char.isDigit) || isNumericNoLeadingZero s)

/-- A valid build identifier: non-empty, alphanumeric-or-hyphen. -/
def buildIdentOk (s : String) : Bool := !(s = "") && s.toList.all identChar

/-- Split a character list on every occurrence of `c`
(the semantics of Python `str.split(c)` / `String.splitOn`). -/
def splitOnChar (c : Char) : List Char → List (List Char)
  | [] => [[]]
  | a :: rest =>
    if a = c then [] :: splitOnChar c rest
    else
      match splitOnChar c rest with
      | [] => [[a]]
      | h :: t => (a :: h) :: t

/-- Split a string on `.` (the semantics of `s.split(".")`). -/
def splitOnDot (s : String) : List String :=
  (splitOnChar '.' s.toList).map (fun l => ⟨l⟩)

/-- The numeric value of a digit string. -/
def digitsToNat (l : List Char) : Nat :=
  l.foldl (fun n c => n * 10 + (c.toNat - 48)) 0

/-- Split a string at the first occurrence of `c`: returns the prefix and,
when `c` occurs, the remainder after it. -/
def splitFirst (c : Char) (s : String) : String × Option String :=
  let l := s.toList
  let pre := l.takeWhile (fun a => !(a = c))
  match l.dropWhile (fun a => !(a = c)) with
  | [] => (⟨pre⟩, none)
  | _ :: rest => (⟨pre⟩, some ⟨rest⟩)

/-- The parsed components of a strict semantic version. -/
structure SemVerParts where
  major : Nat
  minor : Nat
  patch : Nat
  pre : Option String
  build : Option String
deriving DecidableEq

/-- Modelled from the spec: strict semantic-version parsing as performed by
`semantic_version.Version` / `semantic_version.validate` — exactly
`major.minor.patch` with numeric components without leading zeros, an
optional `-prerelease` (dot-separated identifiers, numeric ones without
leading zeros) and an optional `+build` (dot-separated identifiers). -/
def parseSemver (s : String) : Option SemVerParts :=
  let (main, build?) := splitFirst '+' s
  let (core, pre?) := splitFirst '-' main
  match splitOnDot core with
  | [ma, mi, pa] =>
    if isNumericNoLeadingZero ma && isNumericNoLeadingZero mi &&
        isNumericNoLeadingZero pa then
      let preOk := match pre? with
        | none => true
        | some p => (splitOnDot p).all preIdentOk
      let buildOk := match build? with
        | none => true
        | some b => (splitOnDot b).all buildIdentOk
      if preOk && buildOk then
        some ⟨digitsToNat ma.toList, digitsToNat mi.toList, digitsToNat pa.toList,
          pre?, build?⟩
      else none
    else none
  | _ => none

/-- Modelled from the spec: `semantic_version.validate` (strict). -/
def isSemverValid (s : String) : Bool := (parseSemver s).isSome

/-- Modelled from the spec: `semantic_version.Version(value) < Version("1.0.0")`.
A version is below `1.0.0` exactly when its major component is `0`, or it is
`1.0.0` with a prerelease (a prerelease sorts below the bare version). -/
def semverBelowOneZeroZero (s : String) : Bool :=
  match parseSemver s with
  | none => false
  | some v =>
    v.major = 0 || (v.major = 1 && v.minor = 0 && v.patch = 0 && v.pre.isSome)

/-- A wildcard component of a version range clause. -/
def isWildComponent (s : String) : Bool := s = "x" || s = "X" || s = "*"

/-- Strip one leading comparator/caret/tilde operator of a range clause,
longest operator first. -/
def stripRangeOp (cs : List Char) : List Char :=
  match cs with
  | '>' :: '=' :: r => r
  | '<' :: '=' :: r => r
  | '=' :: '=' :: r => r
  | '!' :: '=' :: r => r
  | '~' :: '=' :: r => r
  | '>' :: r => r
  | '<' :: r => r
  | '=' :: r => r
  | '^' :: r => r
  | '~' :: r => r
  | r => r

/-- Modelled from the spec: one clause of a `semantic_version.SimpleSpec`
range expression — an optional comparator/caret/tilde prefix followed by a
(possibly partial or wildcard) version. -/
def simpleClauseValid (s : String) : Bool :=
  let r : String := ⟨stripRangeOp s.toList⟩
  if r = "*" then true
  else if isSemverValid r then true
  else
    match splitOnDot r with
    | [a] => isDigits a || isWildComponent a
    | [a, b] => (isDigits a || isWildComponent a) && (isDigits b || isWildComponent b)
    | [a, b, c] => (isDigits a || isWildComponent a) && (isDigits b || isWildComponent b)
        && isWildComponent c
    | _ => false

/-- Modelled from the spec: `semantic_version.SimpleSpec(spec)` parsing —
a non-empty comma-separated conjunction of clauses. -/
def simpleSpecValid (s : String) : Bool :=
  !(s = "") && ((splitOnChar ',' s.toList).map (fun l => (⟨l⟩ : String))).all simpleClauseValid

/-! ## `CollectionFilename` (`schema.py` lines 71-97)

`_FILENAME_RE` is
`^(?P<namespace>\w+)-(?P<name>\w+)-(?P<version>[0-9a-zA-Z.+-]+)\.tar\.gz$`.
Python's `$` (without re.MULTILINE) matches at the end of the string or just
before a newline that is the string's last character, and no character class
of the pattern contains a newline, so the regex matches the input exactly
when the strictly-anchored pattern matches the input minus at most one
trailing newline (the groups never contain that newline).  On that core:
since `\w` cannot match `-`, backtracking cannot shorten the namespace or
name groups (a shorter group would have to be followed by a word character,
not `-`), so the pattern matches exactly when: the core ends in `.tar.gz`;
the stem before that final suffix starts with a maximal non-empty word-char
run followed by `-`; the remainder starts with another maximal non-empty
word-char run followed by `-`; and the rest (the greedy version group,
everything up to the final `.tar.gz`) is non-empty and drawn from
`[0-9a-zA-Z.+-]`.  The match function below embeds exactly that. -/

/-- A character of the version group of `_FILENAME_RE`: `[0-9a-zA-Z.+-]`. -/
def versionChar (c : Char) : Bool :=
  c.isAlphanum || c = '.' || c = '+' || c = '-'

/-- Match the stem (filename minus the final `.tar.gz`) against
`(\w+)-(\w+)-([0-9a-zA-Z.+-]+)`, anchored on both sides. -/
def matchStem (cs : List Char) : Option (List Char × List Char × List Char) :=
  match cs.dropWhile wordChar with
  | '-' :: r2 =>
    match r2.dropWhile wordChar with
    | '-' :: ver =>
      if !(cs.takeWhile wordChar).isEmpty && !(r2.takeWhile wordChar).isEmpty &&
          !ver.isEmpty && ver.all versionChar then
        some (cs.takeWhile wordChar, r2.takeWhile wordChar, ver)
      else none
    | _ => none
  | _ => none

/-- The character list of the literal `.tar.gz`. -/
def tarGzSuffix : List Char := ['.', 't', 'a', 'r', '.', 'g', 'z']

/-- The core the anchored pattern runs on: the input minus the single
trailing newline that Python's `$` tolerates, when one is present. -/
def stripFinalNewline (cs : List Char) : List Char :=
  if cs.getLast? = some '\n' then cs.dropLast else cs

/-- The strictly-anchored match on a character list: final `.tar.gz` suffix,
then `matchStem` on the stem before it. -/
def filenameListMatch (cs : List Char) : Option (List Char × List Char × List Char) :=
  if cs.length ≥ 7 ∧ cs.drop (cs.length - 7) = tarGzSuffix then
    matchStem (cs.take (cs.length - 7))
  else none

/-- Embeds `_FILENAME_RE.match(filename)`: group extraction per the analysis
above — the strictly-anchored match on the input minus an optional trailing
newline — and `none` when the regex does not match. -/
def filenameMatch (f : String) : Option (String × String × String) :=
  (filenameListMatch (stripFinalNewline f.toList)).map
    (fun p => (⟨p.1⟩, ⟨p.2.1⟩, ⟨p.2.2⟩))

/-- The validated `CollectionFilename` value object.  The `version` field
stores the string form of the parsed `semantic_version.Version`;
strict parsing preserves the source text, so the string itself is kept,
guarded by `isSemverValid` at construction. -/
structure CollectionFilename where
  namespace_ : String
  name : String
  version : String
deriving DecidableEq

/-- Embeds `CollectionFilename.__str__`:
the f-string `namespace-name-version.tar.gz`. -/
def CollectionFilename.render (cf : CollectionFilename) : String :=
  cf.namespace_ ++ "-" ++ cf.name ++ "-" ++ cf.version ++ ".tar.gz"

/-- Embeds `CollectionFilename.parse` plus the construction it performs:
regex match (a mismatch raises the format `ValueError`), the
`semantic_version.Version` converter on `version` (raising on an invalid
version string), then the `_validator` checks of `namespace` and `name`
against `constants.NAME_REGEXP`, in field declaration order. -/
def CollectionFilename.parse (f : String) : Except String CollectionFilename :=
  match filenameMatch f with
  | none =>
    .error "Invalid filename. Expected: \x7bnamespace\x7d-\x7bname\x7d-\x7bversion\x7d.tar.gz"
  | some (ns, nm, ver) =>
    if !isSemverValid ver then
      .error ("Invalid version string: '" ++ ver ++ "'")
    else if !nameMatch ns then
      .error ("Invalid namespace: '" ++ ns ++ "'")
    else if !nameMatch nm then
      .error ("Invalid name: '" ++ nm ++ "'")
    else .ok ⟨ns, nm, ver⟩

/-! ## `CollectionInfo` (`schema.py` lines 100-316)

Field declaration order: namespace, name, version, license, description,
repository, documentation, homepage, issues, authors, tags, license_file,
readme, dependencies.  attrs applies converters at assignment time, then runs
each attribute's validators in that declaration order (an attribute's own
validators in the order they were attached in the class body), then calls
`__attrs_post_init__`; the first raised `ValueError` aborts construction. -/

/-- Maximum lengths from `schema.py`. -/
def MAX_LENGTH_AUTHOR : Nat := 64

/-- `MAX_LENGTH_LICENSE` from `schema.py`. -/
def MAX_LENGTH_LICENSE : Nat := 32

/-- `MAX_LENGTH_NAME` from `schema.py`. -/
def MAX_LENGTH_NAME : Nat := 64

/-- `MAX_LENGTH_TAG` from `schema.py`. -/
def MAX_LENGTH_TAG : Nat := 64

/-- `MAX_LENGTH_URL` from `schema.py`. -/
def MAX_LENGTH_URL : Nat := 2000

/-- `MAX_LENGTH_VERSION` from `schema.py`. -/
def MAX_LENGTH_VERSION : Nat := 128

/-- `REQUIRED_TAG_LIST` from `schema.py`. -/
def REQUIRED_TAG_LIST : List String :=
  ["ai", "application", "cloud", "database", "eda", "infrastructure", "linux",
   "monitoring", "networking", "security", "storage", "tools", "windows"]

/-- Modelled from the spec: `constants.MAX_TAGS_COUNT` is not in the reviewed
tree; the spec only states a maximum tag count exists.  The concrete bound
chosen here does not affect any claim. -/
def MAX_TAGS_COUNT : Nat := 20

/-- Modelled from the spec: the external configuration collaborator
(`config.ConfigFile.load()` / `config.Config`), which supplies the two policy
booleans consulted during validation. -/
structure Config where
  check_required_tags : Bool
  require_v1_or_greater : Bool
deriving DecidableEq

/-- The raw Python value passed for `dependencies`: `None`, a dict
(association list preserving insertion order), or a value of some other,
non-dict type. -/
inductive DepsInput where
  | noneVal
  | dict (entries : List (String × String))
  | other
deriving DecidableEq

/-- Embeds `convert_none_to_empty_dict`. -/
def convert_none_to_empty_dict (val : DepsInput) : DepsInput :=
  match val with
  | .noneVal => .dict []
  | v => v

/-- The dict entries of a (converted, dict-checked) dependencies value. -/
def depsEntries : DepsInput → List (String × String)
  | .dict d => d
  | _ => []

/-- The raw constructor arguments of `CollectionInfo`
(source field `namespace` is spelled `namespace_`, a Lean keyword). -/
structure CollectionInfoInput where
  namespace_ : Option String
  name : Option String
  version : Option String
  license : List String
  description : Option String
  repository : Option String
  documentation : Option String
  homepage : Option String
  issues : Option String
  authors : List String
  tags : List String
  license_file : Option String
  readme : Option String
  dependencies : DepsInput
deriving DecidableEq

/-- The validated, immutable `CollectionInfo` value object. -/
structure CollectionInfo where
  namespace_ : Option String
  name : Option String
  version : Option String
  license : List String
  description : Option String
  repository : Option String
  documentation : Option String
  homepage : Option String
  issues : Option String
  authors : List String
  tags : List String
  license_file : Option String
  readme : Option String
  dependencies : List (String × String)
deriving DecidableEq

/-- Embeds `CollectionInfo.value_error`: every message is prefixed with
`Invalid collection metadata. `. -/
def value_error (msg : String) : Except String Unit :=
  .error ("Invalid collection metadata. " ++ msg)

/-- Embeds `_check_required` for an optional-string field: fails when the
value is falsy (`None` or the empty string). -/
def checkRequired (attrName : String) (v : Option String) : Except String Unit :=
  if !truthyStr v then value_error ("'" ++ attrName ++ "' is required")
  else .ok ()

/-- Embeds `_check_required` for a list field (`authors`): an empty list is
falsy. -/
def checkRequiredList (attrName : String) (v : List String) : Except String Unit :=
  if v.isEmpty then value_error ("'" ++ attrName ++ "' is required")
  else .ok ()

/-- Embeds `_check_name`: the `NAME_REGEXP` match then the max-length bound.
Only reached after `_check_required`, so the value is a string
(`None` is rendered as the empty string, which fails the regex anyway). -/
def checkName (attrName : String) (v : Option String) : Except String Unit :=
  let s := v.getD ""
  if !nameMatch s then
    value_error ("'" ++ attrName ++ "' has invalid format: " ++ s)
  else if s.length > MAX_LENGTH_NAME then
    value_error ("'" ++ attrName ++ "' must not be greater than 64 characters")
  else .ok ()

/-- Embeds `_check_version_format`: semantic-version syntax, max length, and
the config-driven `require_v1_or_greater` policy, in that order.  The config
is read from the collaborator on every call; here it is the `cfg` argument. -/
def checkVersionFormat (cfg : Config) (v : Option String) : Except String Unit :=
  let s := v.getD ""
  if !isSemverValid s then
    value_error ("Expecting 'version' to be in semantic version format, instead found '"
      ++ s ++ "'.")
  else if s.length > MAX_LENGTH_VERSION then
    value_error "'version' must not be greater than 128 characters"
  else if cfg.require_v1_or_greater && semverBelowOneZeroZero s then
    value_error "Config is enabled that requires version to be 1.0.0 or greater."
  else .ok ()

/-- Embeds `_check_list_of_str`: in this typed model the list fields are
`List String` by construction, so the check always passes (inputs of wrong
runtime type are outside the modelled input space). -/
def checkListOfStr : Except String Unit := .ok ()

/-- Embeds `_check_licenses`: the per-item length loop (first over-long item
raises), then the invalid-identifier collection check. -/
def checkLicenses (table : SpdxTable) (value : List String) : Except String Unit :=
  if value.any (fun l => l.length > MAX_LENGTH_LICENSE) then
    value_error "Each license in 'licenses' list must not be greater than 32 characters"
  else
    let invalid_licenses := value.filter (fun id => !is_valid_license_id table (some id))
    if !invalid_licenses.isEmpty then
      value_error ("Expecting 'license' to be a list of valid SPDX license identifiers, "
        ++ "instead found invalid license identifiers: '"
        ++ String.intercalate ", " invalid_licenses
        ++ "' in 'license' value " ++ pyStrList value
        ++ ". For more info, visit https://spdx.org")
    else .ok ()

/-- Embeds the `attr.validators.instance_of(dict)` validator on
`dependencies` (runs on the converted value, before
`_check_dependencies_format`). -/
def checkInstanceOfDict (d : DepsInput) : Except String Unit :=
  match d with
  | .dict _ => .ok ()
  | _ => .error "'dependencies' must be <class 'dict'>"

/-- Embeds the body of `_check_dependencies_format` for one dict, iterating
the entries in insertion order: two-segment dot split, identifier grammar of
each segment, self-dependency rejection, then range-expression parsing. -/
def checkDependenciesEntries (selfNs selfName : Option String) :
    List (String × String) → Except String Unit
  | [] => .ok ()
  | (collection, version_spec) :: rest =>
    match splitOnDot collection with
    | [ns, nm] =>
      if !nameMatch ns then
        value_error ("Invalid dependency format: '" ++ ns ++ "' in '"
          ++ ns ++ "." ++ nm ++ "'")
      else if !nameMatch nm then
        value_error ("Invalid dependency format: '" ++ nm ++ "' in '"
          ++ ns ++ "." ++ nm ++ "'")
      else if selfNs = some ns ∧ selfName = some nm then
        value_error "Cannot have self dependency"
      else if !simpleSpecValid version_spec then
        value_error ("Dependency version spec range invalid: " ++ collection
          ++ " " ++ version_spec)
      else checkDependenciesEntries selfNs selfName rest
    | _ => value_error ("Invalid dependency format: '" ++ collection ++ "'")

/-- The first two `_check_tags` conditions share this message. -/
def noReqTagMsg : String :=
  "Invalid collection metadata. At least one tag required from tag list: "
    ++ String.intercalate ", " REQUIRED_TAG_LIST

/-- The per-tag loop of `_check_tags`: format then length, first failure
raises. -/
def checkTagsEach : List String → Except String Unit
  | [] => .ok ()
  | tag :: rest =>
    if !nameMatch tag then
      value_error ("'tag' has invalid format: " ++ tag)
    else if tag.length > MAX_LENGTH_TAG then
      value_error "Each tag in 'tags' list must not be greater than 64 characters"
    else checkTagsEach rest

/-- Embeds `_check_tags`: the two config-driven required-tag conditions, the
early return on an empty list, the max-count bound, then the per-tag loop.
The policy flag is read from the collaborator on every call (`cfg`). -/
def checkTags (cfg : Config) (value : List String) : Except String Unit :=
  if cfg.check_required_tags && value.isEmpty then
    .error noReqTagMsg
  else if cfg.check_required_tags && !(value.any (fun tag => REQUIRED_TAG_LIST.contains tag)) then
    .error noReqTagMsg
  else if value.isEmpty then .ok ()
  else if value.length > MAX_TAGS_COUNT then
    value_error "Expecting no more than 20 tags in metadata"
  else checkTagsEach value

/-- Embeds `_check_non_null_str`: in this typed model the optional-string
fields are `None` or a string by construction, so the check always passes. -/
def checkNonNullStr : Except String Unit := .ok ()

/-- Embeds `_check_max_length_url`: falsy values are skipped, over-long
values raise. -/
def checkMaxLengthUrl (attrName : String) (v : Option String) : Except String Unit :=
  if !truthyStr v then .ok ()
  else if (v.getD "").length > MAX_LENGTH_URL then
    value_error ("'" ++ attrName ++ "' must not be greater than 2000 characters")
  else .ok ()

/-- Embeds `_check_max_length_author`: first over-long author raises. -/
def checkMaxLengthAuthor (value : List String) : Except String Unit :=
  if value.any (fun a => a.length > MAX_LENGTH_AUTHOR) then
    value_error "Each author in 'authors' list must not be greater than 64 characters"
  else .ok ()

/-- All validators of the `namespace` attribute, in attachment order:
`_check_required`, `_check_name`. -/
def validateNamespace (v : Option String) : Except String Unit :=
  exSeq (checkRequired "namespace" v) (checkName "namespace" v)

/-- All validators of the `name` attribute: `_check_required`, `_check_name`. -/
def validateName (v : Option String) : Except String Unit :=
  exSeq (checkRequired "name" v) (checkName "name" v)

/-- All validators of the `version` attribute: `_check_required`,
`_check_version_format`. -/
def validateVersion (cfg : Config) (v : Option String) : Except String Unit :=
  exSeq (checkRequired "version" v) (checkVersionFormat cfg v)

/-- All validators of the `license` attribute: `_check_list_of_str`,
`_check_licenses`. -/
def validateLicense (table : SpdxTable) (v : List String) : Except String Unit :=
  exSeq checkListOfStr (checkLicenses table v)

/-- The validator of `description`: `_check_non_null_str`. -/
def validateDescription (_v : Option String) : Except String Unit :=
  checkNonNullStr

/-- All validators of `repository`: `_check_required`, `_check_non_null_str`
(attached twice in the source), `_check_max_length_url`. -/
def validateRepository (v : Option String) : Except String Unit :=
  exSeq (checkRequired "repository" v)
    (exSeq checkNonNullStr (exSeq checkNonNullStr (checkMaxLengthUrl "repository" v)))

/-- All validators of `documentation`: `_check_non_null_str`,
`_check_max_length_url`. -/
def validateDocumentation (v : Option String) : Except String Unit :=
  exSeq checkNonNullStr (checkMaxLengthUrl "documentation" v)

/-- All validators of `homepage`: `_check_non_null_str`,
`_check_max_length_url`. -/
def validateHomepage (v : Option String) : Except String Unit :=
  exSeq checkNonNullStr (checkMaxLengthUrl "homepage" v)

/-- All validators of `issues`: `_check_non_null_str`,
`_check_max_length_url`. -/
def validateIssues (v : Option String) : Except String Unit :=
  exSeq checkNonNullStr (checkMaxLengthUrl "issues" v)

/-- All validators of `authors`: `_check_required`, `_check_list_of_str`,
`_check_max_length_author`. -/
def validateAuthors (v : List String) : Except String Unit :=
  exSeq (checkRequiredList "authors" v)
    (exSeq checkListOfStr (checkMaxLengthAuthor v))

/-- All validators of `tags`: `_check_list_of_str`, `_check_tags`. -/
def validateTags (cfg : Config) (v : List String) : Except String Unit :=
  exSeq checkListOfStr (checkTags cfg v)

/-- The validator of `license_file`: `_check_non_null_str`. -/
def validateLicenseFile (_v : Option String) : Except String Unit :=
  checkNonNullStr

/-- The validator of `readme`: `_check_required`. -/
def validateReadme (v : Option String) : Except String Unit :=
  checkRequired "readme" v

/-- All validators of `dependencies` (on the converted value):
`attr.validators.instance_of(dict)`, then `_check_dependencies_format`
(which reads the already-assigned `self.namespace` / `self.name`). -/
def validateDependencies (selfNs selfName : Option String) (d : DepsInput) :
    Except String Unit :=
  exSeq (checkInstanceOfDict d)
    (checkDependenciesEntries selfNs selfName (depsEntries d))

/-- The field validators declared before `tags`, in field declaration order. -/
def preTagChecks (cfg : Config) (table : SpdxTable) (i : CollectionInfoInput) :
    Except String Unit :=
  exSeq (validateNamespace i.namespace_)
    (exSeq (validateName i.name)
      (exSeq (validateVersion cfg i.version)
        (exSeq (validateLicense table i.license)
          (exSeq (validateDescription i.description)
            (exSeq (validateRepository i.repository)
              (exSeq (validateDocumentation i.documentation)
                (exSeq (validateHomepage i.homepage)
                  (exSeq (validateIssues i.issues)
                    (validateAuthors i.authors)))))))))

/-- The field validators declared after `tags`, in field declaration order. -/
def postTagChecks (i : CollectionInfoInput) : Except String Unit :=
  exSeq (validateLicenseFile i.license_file)
    (exSeq (validateReadme i.readme)
      (validateDependencies i.namespace_ i.name i.dependencies))

/-- All field-level validators of `CollectionInfo`, in field declaration
order with fail-fast propagation (the grouping into pre-tag / tag / post-tag
segments is associativity only; the execution order is unchanged). -/
def fieldChecks (cfg : Config) (table : SpdxTable) (i : CollectionInfoInput) :
    Except String Unit :=
  exSeq (preTagChecks cfg table i)
    (exSeq (validateTags cfg i.tags) (postTagChecks i))

/-- Embeds `_check_license_or_license_file`, the `__attrs_post_init__`
object-level check: exactly one of `license` / `license_file` must be truthy. -/
def checkLicenseOrLicenseFile (license : List String) (license_file : Option String) :
    Except String Unit :=
  let bLic := !license.isEmpty
  let bFile := truthyStr license_file
  if bLic ≠ bFile then .ok ()
  else if bLic && bFile then
    value_error "The 'license' and 'license_file' keys are mutually exclusive"
  else
    value_error ("Valid values for 'license' or 'license_file' are required. But 'license' ("
      ++ pyStrList license ++ ") and 'license_file' (" ++ pyStrOpt license_file
      ++ ") were invalid.")

/-- The constructor arguments after converters have been applied
(only `dependencies` has a converter). -/
def convertInput (i : CollectionInfoInput) : CollectionInfoInput :=
  { i with dependencies := convert_none_to_empty_dict i.dependencies }

/-- The fully-constructed immutable instance (reached only when every check
passed). -/
def buildRecord (i : CollectionInfoInput) : CollectionInfo :=
  ⟨i.namespace_, i.name, i.version, i.license, i.description, i.repository,
   i.documentation, i.homepage, i.issues, i.authors, i.tags, i.license_file,
   i.readme, depsEntries i.dependencies⟩

/-- Embeds `CollectionInfo(...)` construction: converters at assignment, the
field validators in declaration order (fail-fast), then the post-init
object-level check; on success the immutable instance, on the first failure
that failure, unchanged. -/
def mkCollectionInfo (cfg : Config) (table : SpdxTable) (i : CollectionInfoInput) :
    Except String CollectionInfo :=
  match exSeq (fieldChecks cfg table (convertInput i))
      (checkLicenseOrLicenseFile (convertInput i).license (convertInput i).license_file) with
  | .error e => .error e
  | .ok _ => .ok (buildRecord (convertInput i))

/-! ## `LegacyMetadata._validate_dependencies` (`schema.py` lines 538-566) -/

/-- A raw legacy dependency entry: a bare string, a mapping (association
list of string keys to string values), or a value of some other type. -/
inductive LegacyDep where
  | str (s : String)
  | dict (entries : List (String × String))
  | other
deriving DecidableEq

/-- The error message shared by the non-list and non-str/dict cases. -/
def legacyListMsg : String :=
  "dependencies must be either a list of strings or a list of dictionaries."

/-- The error raised by a mapping carrying none of the three keys. -/
def legacyKeysMsg : String :=
  "dependency must include either the 'role,' 'name,' or 'src' keyword."

/-- Python `str()` of a legacy dependency entry, as interpolated into the
split-check error message (a dict renders in its repr form). -/
def legacyDepStr : LegacyDep → String
  | .str s => s
  | .dict es => "\x7b" ++ String.intercalate ", "
      (es.map (fun p => "'" ++ p.1 ++ "': '" ++ p.2 ++ "'")) ++ "\x7d"
  | .other => "<value>"

/-- Embeds the normalization step of `_validate_dependencies`: a bare string
is used as-is; a mapping resolves through whichever of `role`, `name`, `src`
is present, in that priority order; a mapping with none of them raises the
legacy-schema error. -/
def resolveLegacyDep : LegacyDep → Except String String
  | .str s => .ok s
  | .dict entries =>
    match entries.lookup "role" with
    | some v => .ok v
    | none =>
      match entries.lookup "name" with
      | some v => .ok v
      | none =>
        match entries.lookup "src" with
        | some v => .ok v
        | none => .error legacyKeysMsg
  | .other => .error legacyKeysMsg

/-- The single-dot two-segment check (`_dependency.count(".") != 1`) on the
resolved string `s`; the error message interpolates the original entry. -/
def legacySplitCheck (orig : LegacyDep) (s : String) : Except String Unit :=
  if s.toList.count '.' ≠ 1 then
    .error (legacyDepStr orig ++ " must have namespace and name separated by '.'")
  else .ok ()

/-- Embeds the per-entry body of `_validate_dependencies`: the str/dict type
check, the normalization above, then the single-dot two-segment check
(a bare string resolves to itself, so its split check runs directly). -/
def checkLegacyDependency : LegacyDep → Except String Unit
  | .other => .error legacyListMsg
  | .str s => legacySplitCheck (.str s) s
  | .dict entries =>
    match resolveLegacyDep (.dict entries) with
    | .error e => .error e
    | .ok s => legacySplitCheck (.dict entries) s

/-- Embeds `_validate_dependencies` over the (list-typed) value: each entry
checked in order, first failure raises. -/
def validate_dependencies : List LegacyDep → Except String Unit
  | [] => .ok ()
  | d :: rest => exSeq (checkLegacyDependency d) (validate_dependencies rest)

/-! ## Concrete sample data used by the witnesses -/

/-- A small catalog: `MIT` valid, `OLD` deprecated. -/
def sampleTable : SpdxTable :=
  [("MIT", [("deprecated", false)]), ("OLD", [("deprecated", true)])]

/-- Both policy flags off. -/
def cfgOff : Config := ⟨false, false⟩

/-- Required-tag policy on, minimum-version policy off. -/
def cfgOn : Config := ⟨true, false⟩

/-- A constructor-argument set that passes every check under `cfgOff` and
`sampleTable`: namespace `ns`, name `name`, version `1.0.0`, license `MIT`. -/
def sampleInput : CollectionInfoInput :=
  ⟨some "ns", some "name", some "1.0.0", ["MIT"], none, some "http_repo",
   none, none, none, ["author"], [], none, some "README.md", .dict []⟩

/-! ## Helper lemmas -/

/-- A failed first step aborts the sequence with that failure. -/
theorem exSeq_err {a b : Except String Unit} {e : String} (h : a = .error e) :
    exSeq a b = .error e := by
  rw [h]; rfl

/-- A successful first step passes control to the second. -/
theorem exSeq_okl {a b : Except String Unit} (h : a = .ok ()) :
    exSeq a b = b := by
  rw [h]; rfl

/-- A sequence succeeds exactly when both steps succeed. -/
theorem exSeq_ok_iff {a b : Except String Unit} :
    exSeq a b = .ok () ↔ a = .ok () ∧ b = .ok () := by
  cases a with
  | error e => simp [exSeq]
  | ok u => cases u; simp [exSeq]

/-- A sequence fails with `e` exactly when the first step fails with `e`, or
the first step succeeds and the second fails with `e`. -/
theorem exSeq_error_iff {a b : Except String Unit} {e : String} :
    exSeq a b = .error e ↔ a = .error e ∨ (a = .ok () ∧ b = .error e) := by
  cases a with
  | error e' => simp [exSeq]
  | ok u => cases u; simp [exSeq]

/-- `takeWhile`/`dropWhile` on a list that starts with an all-`p` block
followed by a non-`p` element. -/
theorem takeWhile_dropWhile_all_append (p : Char → Bool) (l : List Char) (x : Char)
    (r : List Char) (hl : l.all p = true) (hx : p x = false) :
    (l ++ x :: r).takeWhile p = l ∧ (l ++ x :: r).dropWhile p = x :: r := by
  induction l with
  | nil => simp [List.takeWhile, List.dropWhile, hx]
  | cons a as ih =>
    simp only [List.all_cons, Bool.and_eq_true] at hl
    have := ih hl.2
    simp [List.takeWhile, List.dropWhile, hl.1, this.1, this.2]

set_option maxRecDepth 100000

/-- A field-validator failure is the construction's result. -/
theorem mk_error_of_fieldChecks {cfg : Config} {table : SpdxTable}
    {i : CollectionInfoInput} {e : String}
    (h : fieldChecks cfg table (convertInput i) = .error e) :
    mkCollectionInfo cfg table i = .error e := by
  unfold mkCollectionInfo
  rw [exSeq_err h]

/-- When every field validator passes, a post-init failure is the
construction's result. -/
theorem mk_error_of_post {cfg : Config} {table : SpdxTable}
    {i : CollectionInfoInput} {e : String}
    (h : fieldChecks cfg table (convertInput i) = .ok ())
    (hp : checkLicenseOrLicenseFile (convertInput i).license
      (convertInput i).license_file = .error e) :
    mkCollectionInfo cfg table i = .error e := by
  unfold mkCollectionInfo
  rw [exSeq_okl h, hp]

/-- When every field validator and the post-init check pass, construction
yields the immutable instance. -/
theorem mk_ok_of_checks {cfg : Config} {table : SpdxTable}
    {i : CollectionInfoInput}
    (h : fieldChecks cfg table (convertInput i) = .ok ())
    (hp : checkLicenseOrLicenseFile (convertInput i).license
      (convertInput i).license_file = .ok ()) :
    mkCollectionInfo cfg table i = .ok (buildRecord (convertInput i)) := by
  unfold mkCollectionInfo
  rw [exSeq_okl h, hp]

/-- A successful construction means every field validator and the post-init
check passed. -/
theorem mk_ok_elim {cfg : Config} {table : SpdxTable}
    {i : CollectionInfoInput} {c : CollectionInfo}
    (h : mkCollectionInfo cfg table i = .ok c) :
    fieldChecks cfg table (convertInput i) = .ok () ∧
    checkLicenseOrLicenseFile (convertInput i).license
      (convertInput i).license_file = .ok () := by
  unfold mkCollectionInfo at h
  cases hs : exSeq (fieldChecks cfg table (convertInput i))
      (checkLicenseOrLicenseFile (convertInput i).license
        (convertInput i).license_file) with
  | error e => rw [hs] at h; exact absurd h (by simp)
  | ok u => exact exSeq_ok_iff.mp (by cases u; exact hs)

/-- The field-validator chain succeeds exactly when its three segments do. -/
theorem fieldChecks_ok_iff {cfg : Config} {table : SpdxTable}
    {i : CollectionInfoInput} :
    fieldChecks cfg table i = .ok () ↔
      preTagChecks cfg table i = .ok () ∧ validateTags cfg i.tags = .ok () ∧
        postTagChecks i = .ok () := by
  unfold fieldChecks
  simp [exSeq_ok_iff]

/-- C4: counter-evidence for "the license-catalog cache is written at most
once per process, including after a failed load that yielded an empty
table".  Starting from the initial (unset) cache with a load that yields the
empty table (a failed read), the first `_get_spdx` call invokes
`_load_spdx`, and the second call — on the state the first call left —
invokes it again: the backing data is re-read because the empty cached dict
is falsy.  With a non-empty first load the second call does reuse the cache. -/
theorem spdx_cache_reloads_after_empty_load :
    (_get_spdx [] none).2.2 = true ∧
    (_get_spdx [] (_get_spdx [] none).2.1).2.2 = true ∧
    (_get_spdx [] (_get_spdx [] none).2.1).2.1 = some [] ∧
    (_get_spdx sampleTable (_get_spdx sampleTable none).2.1).2.2 = false := by
  decide

/-- C5: `is_valid_license_id` returns false for `None`, false for an
identifier absent from the catalog, false for an identifier whose entry is
marked deprecated, and true for a present identifier whose entry is not
marked deprecated. -/
theorem is_valid_license_id_spec :
    (∀ table : SpdxTable, is_valid_license_id table none = false) ∧
    (∀ (table : SpdxTable) (id : String), table.lookup id = none →
      is_valid_license_id table (some id) = false) ∧
    (∀ (table : SpdxTable) (id : String) (e : SpdxEntry), table.lookup id = some e →
      entryDeprecated e = true → is_valid_license_id table (some id) = false) ∧
    (∀ (table : SpdxTable) (id : String) (e : SpdxEntry), table.lookup id = some e →
      entryDeprecated e = false → is_valid_license_id table (some id) = true) := by
  refine ⟨fun table => rfl, fun table id h => ?_, fun table id e h hd => ?_,
    fun table id e h hd => ?_⟩
  · simp only [is_valid_license_id]
    rw [h]
  · simp only [is_valid_license_id]
    rw [h]
    have he : entryTruthy e = true := by
      cases e with
      | nil => exact absurd hd (by decide)
      | cons a t => rfl
    simp [he, hd]
  · simp only [is_valid_license_id]
    rw [h]
    simp [hd]

/-- C5 witness: the four cases at a concrete catalog. -/
theorem is_valid_license_id_spec_witness :
    is_valid_license_id sampleTable none = false ∧
    is_valid_license_id sampleTable (some "nope") = false ∧
    is_valid_license_id sampleTable (some "OLD") = false ∧
    is_valid_license_id sampleTable (some "MIT") = true :=
  ⟨is_valid_license_id_spec.1 sampleTable,
   is_valid_license_id_spec.2.1 sampleTable "nope" (by decide),
   is_valid_license_id_spec.2.2.1 sampleTable "OLD" [("deprecated", true)]
     (by decide) (by decide),
   is_valid_license_id_spec.2.2.2 sampleTable "MIT" [("deprecated", false)]
     (by decide) (by decide)⟩

/-- C10: an identifier present in the catalog with a falsy (empty) entry is
reported valid — the deprecated flag is only consulted for a truthy entry. -/
theorem falsy_entry_is_valid :
    ∀ (table : SpdxTable) (id : String), table.lookup id = some [] →
      is_valid_license_id table (some id) = true := by
  intro table id h
  simp only [is_valid_license_id]
  rw [h]
  rfl

/-- C10 witness: a catalog whose sole identifier has an empty entry. -/
theorem falsy_entry_is_valid_witness :
    is_valid_license_id [("X", [])] (some "X") = true :=
  falsy_entry_is_valid [("X", [])] "X" (by decide)

/-- C9: passing `dependencies=None` to the constructor behaves identically
to passing an empty dict — the converter maps `None` to the empty dict before
the instance-of-dict validator and everything after it. -/
theorem dependencies_none_equals_empty_dict :
    ∀ (cfg : Config) (table : SpdxTable) (i : CollectionInfoInput),
      mkCollectionInfo cfg table { i with dependencies := .noneVal } =
        mkCollectionInfo cfg table { i with dependencies := .dict [] } := by
  intro cfg table i
  rfl

/-- C1: field validators run in declaration order and the first failure is
the construction's result: a failing namespace validator decides the outcome
no matter what the later-declared fields hold (their validators never run),
and in particular when namespace and version are both invalid the raised
error is the namespace error. -/
theorem validator_order_first_failure_wins :
    (∀ (cfg : Config) (table : SpdxTable) (i : CollectionInfoInput) (e : String),
      validateNamespace i.namespace_ = .error e →
      mkCollectionInfo cfg table i = .error e) ∧
    (∀ (cfg : Config) (table : SpdxTable) (i : CollectionInfoInput) (e e' : String),
      validateNamespace i.namespace_ = .error e →
      validateVersion cfg i.version = .error e' →
      mkCollectionInfo cfg table i = .error e) := by
  have main : ∀ (cfg : Config) (table : SpdxTable) (i : CollectionInfoInput) (e : String),
      validateNamespace i.namespace_ = .error e →
      mkCollectionInfo cfg table i = .error e := by
    intro cfg table i e h
    have hns : validateNamespace (convertInput i).namespace_ = .error e := h
    have hpre : preTagChecks cfg table (convertInput i) = .error e := by
      unfold preTagChecks
      exact exSeq_err hns
    have hfc : fieldChecks cfg table (convertInput i) = .error e := by
      unfold fieldChecks
      exact exSeq_err hpre
    exact mk_error_of_fieldChecks hfc
  exact ⟨main, fun cfg table i e e' h _h' => main cfg table i e h⟩

/-- C1 witness: empty namespace and malformed version — the raised error is
the namespace-required error. -/
theorem validator_order_first_failure_wins_witness :
    validateNamespace (some "") =
      .error "Invalid collection metadata. 'namespace' is required" ∧
    validateVersion cfgOff (some "bad") =
      .error "Invalid collection metadata. Expecting 'version' to be in semantic version format, instead found 'bad'." ∧
    mkCollectionInfo cfgOff sampleTable
        { sampleInput with namespace_ := some "", version := some "bad" } =
      .error "Invalid collection metadata. 'namespace' is required" :=
  ⟨by decide, by decide,
   validator_order_first_failure_wins.2 cfgOff sampleTable
     { sampleInput with namespace_ := some "", version := some "bad" }
     "Invalid collection metadata. 'namespace' is required"
     "Invalid collection metadata. Expecting 'version' to be in semantic version format, instead found 'bad'."
     (by decide) (by decide)⟩

/-- C2: the license/license_file mutual-exclusivity check is the post-init
object-level check: any field-validator failure is the construction's result
(the object-level check never runs first), and when every field validator
passes, construction fails when license and license_file are both populated,
fails when both are empty, and succeeds exactly when one of them is
populated. -/
theorem license_mutual_exclusivity :
    (∀ (cfg : Config) (table : SpdxTable) (i : CollectionInfoInput) (e : String),
      fieldChecks cfg table (convertInput i) = .error e →
      mkCollectionInfo cfg table i = .error e) ∧
    (∀ (cfg : Config) (table : SpdxTable) (i : CollectionInfoInput),
      fieldChecks cfg table (convertInput i) = .ok () →
      ((!i.license.isEmpty) = true → truthyStr i.license_file = true →
        mkCollectionInfo cfg table i =
          .error "Invalid collection metadata. The 'license' and 'license_file' keys are mutually exclusive") ∧
      ((!i.license.isEmpty) = false → truthyStr i.license_file = false →
        mkCollectionInfo cfg table i =
          .error ("Invalid collection metadata. "
            ++ ("Valid values for 'license' or 'license_file' are required. But 'license' ("
              ++ pyStrList i.license ++ ") and 'license_file' ("
              ++ pyStrOpt i.license_file ++ ") were invalid."))) ∧
      ((!i.license.isEmpty) ≠ truthyStr i.license_file →
        mkCollectionInfo cfg table i = .ok (buildRecord (convertInput i)))) := by
  refine ⟨fun cfg table i e h => mk_error_of_fieldChecks h,
    fun cfg table i h => ⟨fun h1 h2 => ?_, fun h1 h2 => ?_, fun h3 => ?_⟩⟩
  · refine mk_error_of_post h ?_
    show checkLicenseOrLicenseFile i.license i.license_file = _
    simp [checkLicenseOrLicenseFile, h1, h2, value_error]
  · refine mk_error_of_post h ?_
    show checkLicenseOrLicenseFile i.license i.license_file = _
    simp [checkLicenseOrLicenseFile, h1, h2, value_error]
  · refine mk_ok_of_checks h ?_
    show checkLicenseOrLicenseFile i.license i.license_file = _
    simp [checkLicenseOrLicenseFile, h3]

/-- C2 witness: both populated fails with the mutual-exclusivity error, both
empty fails with the values-required error, exactly one populated succeeds. -/
theorem license_mutual_exclusivity_witness :
    mkCollectionInfo cfgOff sampleTable
        { sampleInput with license := ["MIT"], license_file := some "LICENSE" } =
      .error "Invalid collection metadata. The 'license' and 'license_file' keys are mutually exclusive" ∧
    mkCollectionInfo cfgOff sampleTable
        { sampleInput with license := [], license_file := none } =
      .error "Invalid collection metadata. Valid values for 'license' or 'license_file' are required. But 'license' ([]) and 'license_file' (None) were invalid." ∧
    mkCollectionInfo cfgOff sampleTable sampleInput =
      .ok (buildRecord (convertInput sampleInput)) := by
  refine ⟨?_, ?_, ?_⟩
  · exact (license_mutual_exclusivity.2 cfgOff sampleTable
      { sampleInput with license := ["MIT"], license_file := some "LICENSE" }
      (by decide)).1 (by decide) (by decide)
  · have h := (license_mutual_exclusivity.2 cfgOff sampleTable
      { sampleInput with license := [], license_file := none }
      (by decide)).2.1 (by decide) (by decide)
    rw [h]
    decide
  · exact (license_mutual_exclusivity.2 cfgOff sampleTable sampleInput
      (by decide)).2.2 (by decide)

/-- The validators declared before `tags` never read the required-tag flag;
only the version check reads `require_v1_or_greater`. -/
theorem preTagChecks_flag_irrel (a b v1 : Bool) (table : SpdxTable)
    (i : CollectionInfoInput) :
    preTagChecks ⟨a, v1⟩ table i = preTagChecks ⟨b, v1⟩ table i := rfl

/-- C8: with the required-tag policy flag disabled a construction succeeds;
enabling the flag — the configuration being consulted anew at this
validation call — makes the same input fail with the required-tag error
whenever its tags list contains none of the fixed category list. -/
theorem required_tag_policy :
    ∀ (v1 : Bool) (table : SpdxTable) (i : CollectionInfoInput) (c : CollectionInfo),
      mkCollectionInfo ⟨false, v1⟩ table i = .ok c →
      i.tags.all (fun t => !(REQUIRED_TAG_LIST.contains t)) = true →
      mkCollectionInfo ⟨true, v1⟩ table i = .error noReqTagMsg := by
  intro v1 table i c h hTags
  obtain ⟨hfc, _hpost⟩ := mk_ok_elim h
  obtain ⟨hpre, _htag, _hpost2⟩ := fieldChecks_ok_iff.mp hfc
  have hpre' : preTagChecks ⟨true, v1⟩ table (convertInput i) = .ok () := by
    rw [preTagChecks_flag_irrel true false v1]
    exact hpre
  have hnone : (convertInput i).tags.any (fun t => REQUIRED_TAG_LIST.contains t) = false := by
    show i.tags.any _ = false
    rw [List.any_eq_false]
    intro t ht
    have := List.all_eq_true.mp hTags t ht
    simpa using this
  have htags' : validateTags ⟨true, v1⟩ (convertInput i).tags = .error noReqTagMsg := by
    unfold validateTags
    rw [exSeq_okl (rfl : checkListOfStr = .ok ())]
    unfold checkTags
    cases he : (convertInput i).tags.isEmpty with
    | true => simp [he]
    | false =>
      rw [hnone]
      simp [he]
  have hfc' : fieldChecks ⟨true, v1⟩ table (convertInput i) = .error noReqTagMsg := by
    unfold fieldChecks
    rw [exSeq_okl hpre']
    exact exSeq_err htags'
  exact mk_error_of_fieldChecks hfc'

/-- C8 witness: the sample input (no category tag) succeeds with the flag
off and fails with the required-tag error with the flag on. -/
theorem required_tag_policy_witness :
    mkCollectionInfo cfgOff sampleTable sampleInput =
      .ok (buildRecord (convertInput sampleInput)) ∧
    mkCollectionInfo cfgOn sampleTable sampleInput = .error noReqTagMsg :=
  ⟨by decide,
   required_tag_policy false sampleTable sampleInput
     (buildRecord (convertInput sampleInput)) (by decide) (by decide)⟩

/-- C3: a dependency key must split into exactly two dot-separated segments,
each matching the identifier grammar, the value must parse as a version
range, and a key equal to the declaring collection's own namespace.name is
rejected (before the value is even parsed); concretely, the entry
ns.name -> 1.0.0 fails on a collection named ns/name and succeeds, all other
fields valid, on a collection with a different namespace. -/
theorem dependency_entry_checks :
    (∀ (selfNs selfName : Option String) (k sp : String),
      (splitOnDot k).length ≠ 2 →
      checkDependenciesEntries selfNs selfName [(k, sp)] =
        .error ("Invalid collection metadata. "
          ++ ("Invalid dependency format: '" ++ k ++ "'"))) ∧
    (∀ (selfNs selfName : Option String) (k sp ns nm : String),
      splitOnDot k = [ns, nm] → nameMatch ns = false →
      checkDependenciesEntries selfNs selfName [(k, sp)] =
        .error ("Invalid collection metadata. "
          ++ ("Invalid dependency format: '" ++ ns ++ "' in '"
            ++ ns ++ "." ++ nm ++ "'"))) ∧
    (∀ sp : String,
      checkDependenciesEntries (some "ns") (some "name") [("ns.name", sp)] =
        .error "Invalid collection metadata. Cannot have self dependency") ∧
    (∀ sp : String, simpleSpecValid sp = false →
      checkDependenciesEntries (some "foo") (some "name") [("ns.name", sp)] =
        .error ("Invalid collection metadata. "
          ++ ("Dependency version spec range invalid: " ++ "ns.name" ++ " " ++ sp))) ∧
    (mkCollectionInfo cfgOff sampleTable
        { sampleInput with dependencies := .dict [("ns.name", "1.0.0")] } =
      .error "Invalid collection metadata. Cannot have self dependency") ∧
    (mkCollectionInfo cfgOff sampleTable
        { sampleInput with namespace_ := some "foo", dependencies := .dict [("ns.name", "1.0.0")] } =
      .ok (buildRecord (convertInput
        { sampleInput with namespace_ := some "foo", dependencies := .dict [("ns.name", "1.0.0")] }))) := by
  refine ⟨fun selfNs selfName k sp hlen => ?_, fun selfNs selfName k sp ns nm hsp hnm => ?_,
    fun sp => ?_, fun sp hsp => ?_, by decide, by decide⟩
  · simp only [checkDependenciesEntries]
    cases h : splitOnDot k with
    | nil => rfl
    | cons a t =>
      cases t with
      | nil => rfl
      | cons b t2 =>
        cases t2 with
        | nil => rw [h] at hlen; exact absurd rfl hlen
        | cons c t3 => rfl
  · simp only [checkDependenciesEntries]
    rw [hsp]
    simp [hnm, value_error]
  · simp only [checkDependenciesEntries]
    rw [show splitOnDot "ns.name" = ["ns", "name"] from by decide]
    simp [show nameMatch "ns" = true from by decide,
      show nameMatch "name" = true from by decide, value_error]
  · simp only [checkDependenciesEntries]
    rw [show splitOnDot "ns.name" = ["ns", "name"] from by decide]
    simp [show nameMatch "ns" = true from by decide,
      show nameMatch "name" = true from by decide, hsp, value_error]

/-- C3 witness: concrete instances of the four quantified parts. -/
theorem dependency_entry_checks_witness :
    checkDependenciesEntries (some "ns") (some "name") [("nsname", "1.0.0")] =
      .error "Invalid collection metadata. Invalid dependency format: 'nsname'" ∧
    checkDependenciesEntries (some "ns") (some "name") [("n!.x", "1.0.0")] =
      .error "Invalid collection metadata. Invalid dependency format: 'n!' in 'n!.x'" ∧
    checkDependenciesEntries (some "ns") (some "name") [("ns.name", "1.0.0")] =
      .error "Invalid collection metadata. Cannot have self dependency" ∧
    checkDependenciesEntries (some "foo") (some "name") [("ns.name", "oops")] =
      .error "Invalid collection metadata. Dependency version spec range invalid: ns.name oops" := by
  refine ⟨?_, ?_, ?_, ?_⟩
  · rw [dependency_entry_checks.1 (some "ns") (some "name") "nsname" "1.0.0" (by decide)]
    decide
  · rw [dependency_entry_checks.2.1 (some "ns") (some "name") "n!.x" "1.0.0" "n!" "x"
      (by decide) (by decide)]
    decide
  · exact dependency_entry_checks.2.2.1 "1.0.0"
  · rw [dependency_entry_checks.2.2.2.1 "oops" (by decide)]
    decide

/-- C6: a bare legacy dependency string is used as-is; a mapping resolves to
a string through whichever of the keys role, name, src is present, in that
priority order, before the single-dot two-segment check — so a src mapping
validates with the same outcome as the bare string — and a mapping carrying
none of the three keys is rejected with the legacy-schema error. -/
theorem legacy_dependency_resolution :
    (∀ s : String, resolveLegacyDep (.str s) = .ok s) ∧
    (∀ (entries : List (String × String)) (r : String),
      entries.lookup "role" = some r → resolveLegacyDep (.dict entries) = .ok r) ∧
    (∀ (entries : List (String × String)) (n : String),
      entries.lookup "role" = none → entries.lookup "name" = some n →
      resolveLegacyDep (.dict entries) = .ok n) ∧
    (∀ (entries : List (String × String)) (v : String),
      entries.lookup "role" = none → entries.lookup "name" = none →
      entries.lookup "src" = some v → resolveLegacyDep (.dict entries) = .ok v) ∧
    (∀ entries : List (String × String), entries.lookup "role" = none →
      entries.lookup "name" = none → entries.lookup "src" = none →
      checkLegacyDependency (.dict entries) = .error legacyKeysMsg) ∧
    (∀ s : String, exIsOk (checkLegacyDependency (.dict [("src", s)])) =
      exIsOk (checkLegacyDependency (.str s))) ∧
    (checkLegacyDependency (.str "ns.name") = .ok () ∧
      checkLegacyDependency (.dict [("src", "ns.name")]) = .ok ()) := by
  have hres : ∀ entries : List (String × String), entries.lookup "role" = none →
      entries.lookup "name" = none → entries.lookup "src" = none →
      resolveLegacyDep (.dict entries) = .error legacyKeysMsg := by
    intro entries h1 h2 h3
    simp only [resolveLegacyDep]
    rw [h1, h2, h3]
  refine ⟨fun s => rfl, fun entries r h => ?_, fun entries n h1 h2 => ?_,
    fun entries v h1 h2 h3 => ?_, fun entries h1 h2 h3 => ?_, fun s => ?_,
    by decide, by decide⟩
  · simp only [resolveLegacyDep]
    rw [h]
  · simp only [resolveLegacyDep]
    rw [h1, h2]
  · simp only [resolveLegacyDep]
    rw [h1, h2, h3]
  · simp only [checkLegacyDependency]
    rw [hres entries h1 h2 h3]
  · have h : resolveLegacyDep (.dict [("src", s)]) = .ok s := rfl
    simp only [checkLegacyDependency, h]
    unfold legacySplitCheck
    by_cases hc : List.count '.' s.data = 1
    · simp [hc, exIsOk]
    · simp [hc, exIsOk]

/-- C6 witness: concrete instances of the quantified parts — a mapping with
all three keys resolves through role; name wins over src; src alone is used;
a keyless mapping fails; the src mapping and the bare string agree. -/
theorem legacy_dependency_resolution_witness :
    resolveLegacyDep (.str "a.b") = .ok "a.b" ∧
    resolveLegacyDep (.dict [("name", "n.x"), ("role", "r.x"), ("src", "s.x")]) = .ok "r.x" ∧
    resolveLegacyDep (.dict [("name", "n.x"), ("src", "s.x")]) = .ok "n.x" ∧
    resolveLegacyDep (.dict [("src", "s.x")]) = .ok "s.x" ∧
    checkLegacyDependency (.dict [("foo", "x")]) = .error legacyKeysMsg ∧
    exIsOk (checkLegacyDependency (.dict [("src", "nsname")])) =
      exIsOk (checkLegacyDependency (.str "nsname")) :=
  ⟨legacy_dependency_resolution.1 "a.b",
   legacy_dependency_resolution.2.1 [("name", "n.x"), ("role", "r.x"), ("src", "s.x")]
     "r.x" (by decide),
   legacy_dependency_resolution.2.2.1 [("name", "n.x"), ("src", "s.x")] "n.x"
     (by decide) (by decide),
   legacy_dependency_resolution.2.2.2.1 [("src", "s.x")] "s.x"
     (by decide) (by decide) (by decide),
   legacy_dependency_resolution.2.2.2.2.1 [("foo", "x")]
     (by decide) (by decide) (by decide),
   legacy_dependency_resolution.2.2.2.2.2.1 "nsname"⟩


/-- A successful `matchStem` result is a decomposition of its input:
the input is namespace, `-`, name, `-`, version. -/
theorem matchStem_decomp {cs a b c : List Char}
    (h : matchStem cs = some (a, b, c)) :
    cs = a ++ '-' :: (b ++ '-' :: c) := by
  unfold matchStem at h
  split at h
  next r2 heq =>
    split at h
    next ver heq2 =>
      split at h
      next hcond =>
        injection h with h'
        obtain ⟨h1, h23⟩ := Prod.mk.injEq .. |>.mp h'
        obtain ⟨h2, h3⟩ := Prod.mk.injEq .. |>.mp h23
        have e1 := List.takeWhile_append_dropWhile wordChar cs
        have e2 := List.takeWhile_append_dropWhile wordChar r2
        rw [heq] at e1
        rw [heq2] at e2
        rw [← h1, ← h2, ← h3, e2, e1]
      next => exact absurd h (by simp)
    next => exact absurd h (by simp)
  next => exact absurd h (by simp)

/-- A successful strictly-anchored match is a decomposition of its input. -/
theorem filenameListMatch_decomp {cs a b c : List Char}
    (h : filenameListMatch cs = some (a, b, c)) :
    cs = (a ++ '-' :: (b ++ '-' :: c)) ++ tarGzSuffix := by
  unfold filenameListMatch at h
  split at h
  next hc =>
    obtain ⟨hlen, hsuf⟩ := hc
    have hdec := matchStem_decomp h
    have hsplit := List.take_append_drop (cs.length - 7) cs
    rw [hdec, hsuf] at hsplit
    exact hsplit.symm
  next => exact absurd h (by simp)

/-- Every input either has no trailing newline — the core is the input — or
is its core followed by one newline. -/
theorem stripFinalNewline_cases (cs : List Char) :
    stripFinalNewline cs = cs ∨ cs = stripFinalNewline cs ++ ['\n'] := by
  unfold stripFinalNewline
  split
  next h =>
    right
    have hne : cs ≠ [] := by rintro rfl; simp at h
    have hd := List.dropLast_append_getLast hne
    rw [List.getLast?_eq_getLast _ hne] at h
    injection h with h'
    rw [h'] at hd
    exact hd.symm
  next => left; rfl

/-- A list ending in the `.tar.gz` suffix has no trailing newline to strip. -/
theorem stripFinalNewline_tarGz (L : List Char) :
    stripFinalNewline (L ++ tarGzSuffix) = L ++ tarGzSuffix := by
  unfold stripFinalNewline
  rw [if_neg]
  intro hc
  rw [List.getLast?_append_of_ne_nil _ (by decide : tarGzSuffix ≠ [])] at hc
  exact absurd hc (by decide)

/-- A successful regex match decomposes the filename: the filename is the
rendered groups plus `.tar.gz`, either exactly or followed by the single
trailing newline Python's end anchor tolerates. -/
theorem filenameMatch_decomp {f ns nm ver : String}
    (h : filenameMatch f = some (ns, nm, ver)) :
    f = ns ++ "-" ++ nm ++ "-" ++ ver ++ ".tar.gz" ∨
      f = ns ++ "-" ++ nm ++ "-" ++ ver ++ ".tar.gz" ++ "\n" := by
  unfold filenameMatch at h
  cases hm : filenameListMatch (stripFinalNewline f.toList) with
  | none => rw [hm] at h; simp at h
  | some p =>
    rw [hm] at h
    obtain ⟨a, b, c⟩ := p
    simp only [Option.map] at h
    injection h with h'
    obtain ⟨h1, h23⟩ := Prod.mk.injEq .. |>.mp h'
    obtain ⟨h2, h3⟩ := Prod.mk.injEq .. |>.mp h23
    have hdec := filenameListMatch_decomp hm
    rcases stripFinalNewline_cases f.toList with hs | hs
    · left
      apply String.ext
      rw [← h1, ← h2, ← h3]
      have hdata : f.data = (a ++ '-' :: (b ++ '-' :: c)) ++ tarGzSuffix := by
        rw [show f.data = f.toList from rfl, ← hs]
        exact hdec
      rw [hdata]
      simp [String.data_append, tarGzSuffix, List.append_assoc]
    · right
      apply String.ext
      rw [← h1, ← h2, ← h3]
      have hdata : f.data = ((a ++ '-' :: (b ++ '-' :: c)) ++ tarGzSuffix) ++ ['\n'] := by
        rw [show f.data = f.toList from rfl, hs, hdec]
      rw [hdata]
      simp [String.data_append, tarGzSuffix, List.append_assoc]

/-- An identifier-grammar match means a non-empty all-word-character string. -/
theorem nameMatch_parts {s : String} (h : nameMatch s = true) :
    s.toList.all wordChar = true ∧ s.toList ≠ [] := by
  unfold nameMatch at h
  obtain ⟨h1, h2⟩ := (Bool.and_eq_true _ _).mp h
  refine ⟨h2, fun hnil => ?_⟩
  have hs : s = "" := String.ext (hnil.trans rfl)
  rw [hs] at h1
  simp at h1

/-- `matchStem` recovers the components of a well-formed stem. -/
theorem matchStem_build {a b c : List Char} (ha : a.all wordChar = true) (ha' : a ≠ [])
    (hb : b.all wordChar = true) (hb' : b ≠ []) (hc' : c ≠ [])
    (hc : c.all versionChar = true) :
    matchStem (a ++ '-' :: (b ++ '-' :: c)) = some (a, b, c) := by
  unfold matchStem
  obtain ⟨t1, d1⟩ := takeWhile_dropWhile_all_append wordChar a '-' (b ++ '-' :: c) ha (by decide)
  obtain ⟨t2, d2⟩ := takeWhile_dropWhile_all_append wordChar b '-' c hb (by decide)
  rw [d1, t1]
  simp only [d2, t2]
  simp [ha', hb', hc', hc, List.isEmpty_iff]

/-- The regex match on a filename whose character list splits as a stem plus
the `.tar.gz` suffix (no trailing newline involved). -/
theorem filenameMatch_of_toList {f : String} {L a b c : List Char}
    (hf : f.toList = L ++ tarGzSuffix) (hm : matchStem L = some (a, b, c)) :
    filenameMatch f = some (⟨a⟩, ⟨b⟩, ⟨c⟩) := by
  unfold filenameMatch
  rw [hf, stripFinalNewline_tarGz]
  unfold filenameListMatch
  have hlen : (L ++ tarGzSuffix).length - 7 = L.length := by
    simp [tarGzSuffix]
  rw [hlen, List.drop_left, List.take_left, if_pos ⟨by simp [tarGzSuffix], rfl⟩, hm]
  rfl

/-- The character list of a well-shaped filename. -/
theorem string_concat_toList (ns nm ver : String) :
    (ns ++ "-" ++ nm ++ "-" ++ ver ++ ".tar.gz").toList =
      (ns.toList ++ '-' :: (nm.toList ++ '-' :: ver.toList)) ++ tarGzSuffix := by
  simp [String.toList, String.data_append, tarGzSuffix, List.append_assoc]

/-- Parsing a filename of shape namespace-name-version.tar.gz (with valid
identifiers and a valid version) recovers exactly its components. -/
theorem parse_of_shape (ns nm ver : String)
    (hns : nameMatch ns = true) (hnm : nameMatch nm = true)
    (hv0 : ver.toList ≠ []) (hvc : ver.toList.all versionChar = true)
    (hsv : isSemverValid ver = true) :
    CollectionFilename.parse (ns ++ "-" ++ nm ++ "-" ++ ver ++ ".tar.gz") =
      .ok ⟨ns, nm, ver⟩ := by
  obtain ⟨hnsa, hnse⟩ := nameMatch_parts hns
  obtain ⟨hnma, hnme⟩ := nameMatch_parts hnm
  have hmatch : filenameMatch (ns ++ "-" ++ nm ++ "-" ++ ver ++ ".tar.gz") =
      some (ns, nm, ver) :=
    filenameMatch_of_toList (string_concat_toList ns nm ver)
      (matchStem_build hnsa hnse hnma hnme hv0 hvc)
  unfold CollectionFilename.parse
  rw [hmatch]
  simp [hsv, hns, hnm]

/-- A filename that is not a string followed by `.tar.gz` — nor by `.tar.gz`
plus the single trailing newline the end anchor tolerates — fails parsing
with the format error. -/
theorem parse_no_suffix {f : String}
    (h : ∀ s : String, f ≠ s ++ ".tar.gz" ∧ f ≠ s ++ ".tar.gz" ++ "\n") :
    CollectionFilename.parse f =
      .error "Invalid filename. Expected: \x7bnamespace\x7d-\x7bname\x7d-\x7bversion\x7d.tar.gz" := by
  have hnone : filenameMatch f = none := by
    unfold filenameMatch
    cases hm : filenameListMatch (stripFinalNewline f.toList) with
    | none => rfl
    | some p =>
      exfalso
      obtain ⟨a, b, c⟩ := p
      have hdec := filenameListMatch_decomp hm
      rcases stripFinalNewline_cases f.toList with hs | hs
      · refine (h ⟨a ++ '-' :: (b ++ '-' :: c)⟩).1 ?_
        apply String.ext
        rw [String.data_append]
        show f.toList = (a ++ '-' :: (b ++ '-' :: c)) ++ (".tar.gz" : String).data
        rw [← hs, hdec]
        rfl
      · refine (h ⟨a ++ '-' :: (b ++ '-' :: c)⟩).2 ?_
        apply String.ext
        rw [String.data_append, String.data_append]
        show f.toList = (a ++ '-' :: (b ++ '-' :: c)) ++ (".tar.gz" : String).data
          ++ ("\n" : String).data
        rw [hs, hdec]
        rfl
  unfold CollectionFilename.parse
  rw [hnone]

/-- Rendering a successfully parsed filename reproduces the original, up to
the optional trailing newline the end anchor tolerates. -/
theorem parse_roundtrip {f : String} {cf : CollectionFilename}
    (h : CollectionFilename.parse f = .ok cf) :
    cf.render = f ∨ cf.render ++ "\n" = f := by
  unfold CollectionFilename.parse at h
  split at h
  next => exact absurd h (by simp)
  next ns nm ver heq =>
    split at h
    next => exact absurd h (by simp)
    next =>
      split at h
      next => exact absurd h (by simp)
      next =>
        split at h
        next => exact absurd h (by simp)
        next =>
          injection h with h'
          rw [← h']
          rcases filenameMatch_decomp heq with hf | hf
          · left
            exact hf.symm
          · right
            exact hf.symm

/-- C7 counterexample: Python's end anchor matches just before a trailing
newline, so the code parses the string ns-name-1.2.3.tar.gz followed by a
newline — an input that does not literally end in .tar.gz — and renders it
back without that newline: a parseable f with str(parse(f)) different from
f, refuting both the suffix-failure and round-trip parts of the claim as
stated. -/
theorem collection_filename_roundtrip_cex :
    CollectionFilename.parse "ns-name-1.2.3.tar.gz\n" =
      .ok ⟨"ns", "name", "1.2.3"⟩ ∧
    CollectionFilename.render ⟨"ns", "name", "1.2.3"⟩ = "ns-name-1.2.3.tar.gz" ∧
    ("ns-name-1.2.3.tar.gz" : String) ≠ "ns-name-1.2.3.tar.gz\n" := by
  decide

/-- C7 (amended): parsing a filename of shape namespace-name-version.tar.gz
yields exactly those components; a filename that is not some string followed
by .tar.gz — nor by .tar.gz plus the single trailing newline Python's end
anchor tolerates — fails with the format error; and rendering a successfully
parsed filename reproduces the original filename up to that optional
trailing newline. -/
theorem collection_filename_spec :
    (∀ ns nm ver : String,
      nameMatch ns = true → nameMatch nm = true →
      ver.toList ≠ [] → ver.toList.all versionChar = true → isSemverValid ver = true →
      CollectionFilename.parse (ns ++ "-" ++ nm ++ "-" ++ ver ++ ".tar.gz") =
        .ok ⟨ns, nm, ver⟩) ∧
    (∀ f : String, (∀ s : String, f ≠ s ++ ".tar.gz" ∧ f ≠ s ++ ".tar.gz" ++ "\n") →
      CollectionFilename.parse f =
        .error "Invalid filename. Expected: \x7bnamespace\x7d-\x7bname\x7d-\x7bversion\x7d.tar.gz") ∧
    (∀ (f : String) (cf : CollectionFilename),
      CollectionFilename.parse f = .ok cf → cf.render = f ∨ cf.render ++ "\n" = f) :=
  ⟨parse_of_shape, fun _f h => parse_no_suffix h, fun _f _cf h => parse_roundtrip h⟩

/-- C7 witness: the concrete filename ns-name-1.2.3.tar.gz parses to its
components; the same name without the .gz fails; and the round-trip part at
the plain filename and at the newline-suffixed one. -/
theorem collection_filename_spec_witness :
    CollectionFilename.parse "ns-name-1.2.3.tar.gz" =
      .ok ⟨"ns", "name", "1.2.3"⟩ ∧
    CollectionFilename.parse "ns-name-1.2.3.tar" =
      .error "Invalid filename. Expected: \x7bnamespace\x7d-\x7bname\x7d-\x7bversion\x7d.tar.gz" ∧
    (CollectionFilename.render ⟨"ns", "name", "1.2.3"⟩ = "ns-name-1.2.3.tar.gz" ∨
      CollectionFilename.render ⟨"ns", "name", "1.2.3"⟩ ++ "\n" = "ns-name-1.2.3.tar.gz") ∧
    (CollectionFilename.render ⟨"ns", "name", "1.2.3"⟩ = "ns-name-1.2.3.tar.gz\n" ∨
      CollectionFilename.render ⟨"ns", "name", "1.2.3"⟩ ++ "\n" = "ns-name-1.2.3.tar.gz\n") := by
  refine ⟨?_, ?_, ?_, ?_⟩
  · have h := collection_filename_spec.1 "ns" "name" "1.2.3"
      (by decide) (by decide) (by decide) (by decide) (by decide)
    rw [show ("ns-name-1.2.3.tar.gz" : String) =
      "ns" ++ "-" ++ "name" ++ "-" ++ "1.2.3" ++ ".tar.gz" from by decide]
    exact h
  · refine collection_filename_spec.2.1 "ns-name-1.2.3.tar" ?_
    intro s
    constructor
    · intro heq
      have hd : ("ns-name-1.2.3.tar" : String).data =
          s.data ++ (".tar.gz" : String).data := by
        rw [heq, String.data_append]
      have hlen : s.data.length = 10 := by
        have hl := congrArg List.length hd
        rw [List.length_append] at hl
        rw [show ("ns-name-1.2.3.tar" : String).data.length = 17 from by decide,
          show (".tar.gz" : String).data.length = 7 from by decide] at hl
        omega
      have hdrop := congrArg (List.drop 10) hd
      rw [← hlen, List.drop_left] at hdrop
      rw [hlen] at hdrop
      exact absurd hdrop (by decide)
    · intro heq
      have hd : ("ns-name-1.2.3.tar" : String).data =
          s.data ++ ((".tar.gz" : String).data ++ ("\n" : String).data) := by
        rw [heq, String.data_append, String.data_append, List.append_assoc]
      have hlen : s.data.length = 9 := by
        have hl := congrArg List.length hd
        rw [List.length_append, List.length_append] at hl
        rw [show ("ns-name-1.2.3.tar" : String).data.length = 17 from by decide,
          show (".tar.gz" : String).data.length = 7 from by decide,
          show ("\n" : String).data.length = 1 from by decide] at hl
        omega
      have hdrop := congrArg (List.drop 9) hd
      rw [← hlen, List.drop_left] at hdrop
      rw [hlen] at hdrop
      exact absurd hdrop (by decide)
  · exact collection_filename_spec.2.2 "ns-name-1.2.3.tar.gz"
      ⟨"ns", "name", "1.2.3"⟩ (by decide)
  · exact collection_filename_spec.2.2 "ns-name-1.2.3.tar.gz\n"
      ⟨"ns", "name", "1.2.3"⟩ (by decide)
